import Mathlib

/-!
Verification of the server-settings resolution engine of the CLI
(`src/utils/detect-server-settings.mjs`) and of the telemetry reporter
boundary, as a shallow embedding in Lean.

JavaScript conventions are embedded as follows: optional / possibly
`undefined` values become `Option`; JavaScript truthiness of strings and
numbers is made explicit (`strTruthy`, `natTruthy`: the empty string and
the number 0 are falsy); thrown errors become `Except String`; external
effects (port probing, file reads, the interactive framework chooser, the
current working directory) are supplied by an explicit context `Ctx`.
Chalk terminal coloring is dropped from messages (it only wraps the text
in escape codes); the quoted-property formatting is kept.
-/

/-- JavaScript truthiness of a possibly-undefined string: `undefined` and
the empty string are falsy. -/
def strTruthy : Option String → Bool
  | some s => s ≠ ""
  | none => false

/-- JavaScript truthiness of a possibly-undefined number: `undefined` and
`0` are falsy. -/
def natTruthy : Option Nat → Bool
  | some n => n ≠ 0
  | none => false

/-- JavaScript `a || b` on possibly-undefined strings. -/
def jsOrS (a b : Option String) : Option String :=
  if strTruthy a then a else b

/-- JavaScript `a || b` on possibly-undefined numbers. -/
def jsOrN (a b : Option Nat) : Option Nat :=
  if natTruthy a then a else b

/-- JavaScript `a || d` where `d` is a non-empty default string, yielding
a plain string. -/
def jsOrD (a : Option String) (d : String) : String :=
  if strTruthy a then a.getD d else d

/-- JavaScript `a || 0` on a possibly-undefined number. -/
def jsOrZero (a : Option Nat) : Nat :=
  if natTruthy a then a.getD 0 else 0

/-- Whether `pre` occurs at the start of `l`. -/
def startsWithL : List Char → List Char → Bool
  | [], _ => true
  | _ :: _, [] => false
  | a :: as, b :: bs => a = b && startsWithL (a :: as).tail (b :: bs).tail

/-- Whether `sub` occurs contiguously somewhere in `l`. -/
def hasSubL (sub : List Char) : List Char → Bool
  | [] => sub.isEmpty
  | c :: cs => startsWithL sub (c :: cs) || hasSubL sub cs

/-- Whether the string `sub` occurs as a substring of `msg`. -/
def hasSub (msg sub : String) : Bool :=
  hasSubL sub.data msg.data

/-- Source helper `formatProperty` from the module, with the chalk.magenta coloring
dropped: wraps the property name in single quotes. -/
def formatProperty (s : String) : String := "\x27" ++ s ++ "\x27"

/-- Source helper `formatValue` from the module, with the chalk.green coloring dropped. -/
def formatValue (s : String) : String := "\x27" ++ s ++ "\x27"

/-- Error thrown by `validateFrameworkConfig` when `port` and `targetPort`
coincide. -/
def portsConflictMsg : String :=
  formatProperty "port" ++ " and " ++ formatProperty "targetPort" ++
    " options cannot have same values. Please consult the documentation for more details: https://cli.netlify.com/netlify-dev#netlifytoml-dev-block"

/-- Error thrown by `validateConfiguredPort` when the configured `port`
equals the detected framework port. -/
def configuredPortConflictMsg : String :=
  "The " ++ formatProperty "port" ++
    " option you specified conflicts with the port of your application. Please use a different value for " ++
    formatProperty "port"

/-- Error thrown by `handleCustomFramework` when `command` or `targetPort`
is missing. -/
def customFrameworkRequiredMsg : String :=
  formatProperty "command" ++ " and " ++ formatProperty "targetPort" ++
    " properties are required when " ++ formatProperty "framework" ++
    " is set to " ++ formatValue "#custom"

/-- Error message passed to `acquirePort` for the static server port. -/
def staticPortErrMsg : String := "Could not acquire configured static server port"

/-- Error message passed to `acquirePort` for the externally reachable port. -/
def requiredPortErrMsg : String := "Could not acquire required " ++ formatProperty "port"

/-- Error thrown by `readHttpsSettings` when the https option shape is wrong. -/
def httpsOptionsTypeMsg : String :=
  "https options should be an object with " ++ formatProperty "keyFile" ++ " and " ++
    formatProperty "certFile" ++ " string properties"

/-- Error thrown by `readHttpsSettings` when the private key read failed. -/
def keyReadErrMsg (m : String) : String := "Error reading private key file: " ++ m

/-- Error thrown by `readHttpsSettings` when the certificate read failed. -/
def certReadErrMsg (m : String) : String := "Error reading certificate file: " ++ m

/-- The `https` option object of the dev config: a key file path and a
cert file path, either possibly missing. -/
structure HttpsOptions where
  keyFile : Option String := none
  certFile : Option String := none
deriving DecidableEq

/-- Resolved https material: file contents plus resolved paths. -/
structure HttpsSettings where
  key : String
  cert : String
  keyFilePath : String
  certFilePath : String
deriving DecidableEq

/-- The user-supplied dev configuration (config file plus CLI flags). -/
structure DevConfig where
  framework : Option String := none
  command : Option String := none
  port : Option Nat := none
  targetPort : Option Nat := none
  publish : Option String := none
  staticServerPort : Option Nat := none
  functions : Option String := none
  functionsPort : Option Nat := none
  https : Option HttpsOptions := none
  jwtSecret : Option String := none
  jwtRolePath : Option String := none
  pollingStrategies : Option (List String) := none
deriving DecidableEq

/-- The CLI option values relevant to settings resolution. -/
structure CliOptions where
  dir : Option String := none
deriving DecidableEq

/-- A raw detection result from the external `@netlify/build-info`
detector (its `Settings` type), as consumed by
`getSettingsFromDetectedSettings`. -/
structure BuildInfoSettings where
  devCommand : Option String := none
  frameworkPort : Option Nat := none
  dist : Option String := none
  frameworkName : String := ""
  env : Option (List (String × String)) := none
  plugins_from_config_file : Option (List String) := none
  plugins_recommended : Option (List String) := none
  pollingStrategies : Option (List String) := none
deriving DecidableEq

/-- The external project handle: the build settings the detector proposes,
the workspace/package-path filter (an opaque path-prefix check on the
current working directory in the source), and the result of looking up an
explicitly named framework (`none` when the name is unsupported, in which
case the external `getFramework` throws). -/
structure Project where
  buildSettings : List BuildInfoSettings
  workspaceKeep : BuildInfoSettings → Bool
  forced : Option BuildInfoSettings

/-- The effect context: OS port availability and probing, the fallback
port the external `get-port` library picks when the preferred port is
occupied, the current working directory, the internal functions directory
(result of `getInternalFunctionsDir`, which lives outside the embedded
module), the index the interactive prompt would choose among multiple
detections, and the filesystem read/resolve operations. -/
structure Ctx where
  isFree : Nat → Bool
  probe : Nat → Nat
  gpFallback : Nat
  cwd : String
  internalFunctionsDir : Option String
  chooseIdx : Nat
  readFileRes : String → Except String String
  resolvePath : String → String

/-- Default externally reachable port. -/
def DEFAULT_PORT : Nat := 8888

/-- Default static server port. -/
def DEFAULT_STATIC_PORT : Nat := 3999

/-- Modelled from the spec: `acquirePort` is implemented in
`src/utils/dev.mjs`, which is not among the provided sources; this follows
the contract in the specification (section 4.3): a configured port must be
free and is returned as-is, failing with the given message when occupied;
with no configured port, probing starts from the default port and yields a
free port. -/
def acquirePort (ctx : Ctx) (configuredPort : Option Nat) (defaultPort : Nat)
    (errorMessage : String) : Except String Nat :=
  if natTruthy configuredPort then
    if ctx.isFree (configuredPort.getD 0) then .ok (configuredPort.getD 0)
    else .error errorMessage
  else .ok (ctx.probe defaultPort)

/-- Models the external `get-port` library (used directly for the
functions port): returns the preferred port when it is nonzero and free,
otherwise falls back to some other free port; it never fails. A preferred
port of `0` means "any free port". -/
def getPort (ctx : Ctx) (preferred : Nat) : Nat :=
  if preferred ≠ 0 ∧ ctx.isFree preferred then preferred else ctx.gpFallback

/-- Source function `readHttpsSettings`: validates the https option shape, settles both
file reads (they are issued concurrently via `Promise.allSettled` in the
source, so both outcomes are available), then inspects the key result
first and the cert result second. -/
def readHttpsSettings (readFileRes : String → Except String String)
    (resolvePath : String → String) (options : HttpsOptions) :
    Except String HttpsSettings :=
  if strTruthy options.keyFile ∧ strTruthy options.certFile then
    let keyFile := options.keyFile.getD ""
    let certFile := options.certFile.getD ""
    match readFileRes keyFile, readFileRes certFile with
    | .error keyError, _ => .error (keyReadErrMsg keyError)
    | .ok _, .error certError => .error (certReadErrMsg certError)
    | .ok key, .ok cert =>
        .ok { key := key, cert := cert,
              keyFilePath := resolvePath keyFile,
              certFilePath := resolvePath certFile }
  else .error httpsOptionsTypeMsg

/-- Source function `validateFrameworkConfig`: the `typeof` checks on `command`, `port`
and `targetPort` are vacuous in this typed embedding; the remaining check
rejects a truthy `targetPort` equal to `port`. -/
def validateFrameworkConfig (devConfig : DevConfig) : Except String Unit :=
  if natTruthy devConfig.targetPort ∧ devConfig.targetPort = devConfig.port then
    .error portsConflictMsg
  else .ok ()

/-- Source function `validateConfiguredPort`: rejects a truthy configured `port` that
equals the resolved framework port. -/
def validateConfiguredPort (devConfig : DevConfig) (detectedPort : Option Nat) :
    Except String Unit :=
  if natTruthy devConfig.port ∧ devConfig.port = detectedPort then
    .error configuredPortConflictMsg
  else .ok ()

/-- Source function `getStaticServerPort`: acquires the static server port, preferring the
configured `staticServerPort` and defaulting to `DEFAULT_STATIC_PORT`. -/
def getStaticServerPort (ctx : Ctx) (devConfig : DevConfig) : Except String Nat :=
  acquirePort ctx devConfig.staticServerPort DEFAULT_STATIC_PORT staticPortErrMsg

/-- Intermediate resolved settings produced by one detection path
(`BaseServerSettings` in the source; fields absent in JavaScript are
`none` / `false` here). -/
structure BaseServerSettings where
  command : Option String := none
  frameworkPort : Option Nat := none
  dist : Option String := none
  framework : Option String := none
  env : Option (List (String × String)) := none
  pollingStrategies : Option (List String) := none
  plugins : Option (List String) := none
  functions : Option String := none
  useStaticServer : Bool := false
deriving DecidableEq

/-- Source function `handleStaticServer`: the `typeof` check on `staticServerPort` is
vacuous here; computes the dist directory (the `--dir` flag, else the
configured publish directory, else the current working directory) and
acquires a static server port. The `command` field is spread in only when
the configured command is truthy. -/
def handleStaticServer (ctx : Ctx) (devConfig : DevConfig) (options : CliOptions)
    (projectDir : String) : Except String BaseServerSettings :=
  match getStaticServerPort ctx devConfig with
  | .error e => .error e
  | .ok frameworkPort =>
      .ok { command := if strTruthy devConfig.command then devConfig.command else none,
            useStaticServer := true,
            frameworkPort := some frameworkPort,
            dist := jsOrS options.dir (jsOrS devConfig.publish (some ctx.cwd)) }

/-- The plugins that are always auto-installed. -/
def pluginsToAlwaysInstall : List String := ["@netlify/plugin-nextjs"]

/-- Source function `getPluginsToAutoInstall`: keeps every recommended plugin that is
either not already installed or in the always-install set. -/
def getPluginsToAutoInstall (pluginsInstalled pluginsRecommended : List String) :
    List String :=
  pluginsRecommended.foldl
    (fun acc plugin =>
      if pluginsInstalled.contains plugin ∧ ¬ pluginsToAlwaysInstall.contains plugin
      then acc else acc ++ [plugin])
    []

/-- Source function `getSettingsFromDetectedSettings`: converts a raw detection result
into intermediate server settings. -/
def getSettingsFromDetectedSettings (s : BuildInfoSettings) : BaseServerSettings :=
  { command := s.devCommand,
    frameworkPort := s.frameworkPort,
    dist := s.dist,
    framework := some s.frameworkName,
    env := s.env,
    pollingStrategies := s.pollingStrategies,
    plugins := some (getPluginsToAutoInstall (s.plugins_from_config_file.getD [])
      (s.plugins_recommended.getD [])) }

/-- Source function `detectFrameworkSettings`: filters the detector proposals by the
workspace check and by a truthy dev command; with exactly one left it is
taken, with several the interactive prompt (modelled by `ctx.chooseIdx`)
picks one, with none the result is `undefined`. -/
def detectFrameworkSettings (ctx : Ctx) (project : Project) :
    Option BaseServerSettings :=
  let settings :=
    (project.buildSettings.filter project.workspaceKeep).filter
      (fun s => strTruthy s.devCommand)
  match settings with
  | [] => none
  | [s] => some (getSettingsFromDetectedSettings s)
  | s :: rest =>
      some (getSettingsFromDetectedSettings
        ((s :: rest).getD (ctx.chooseIdx % (s :: rest).length) s))

/-- Source function `hasCommandAndTargetPort`: both a truthy `command` and a truthy
`targetPort` are configured. -/
def hasCommandAndTargetPort (devConfig : DevConfig) : Bool :=
  strTruthy devConfig.command && natTruthy devConfig.targetPort

/-- Source function `handleCustomFramework`: requires both `command` and `targetPort`. -/
def handleCustomFramework (ctx : Ctx) (devConfig : DevConfig) :
    Except String BaseServerSettings :=
  if hasCommandAndTargetPort devConfig then
    .ok { command := devConfig.command,
          frameworkPort := devConfig.targetPort,
          dist := jsOrS devConfig.publish (some ctx.cwd),
          framework := some "#custom",
          pollingStrategies := some (devConfig.pollingStrategies.getD []) }
  else .error customFrameworkRequiredMsg

/-- Source function `mergeSettings`: combines detected framework settings with the config
overrides; when the merged command/port pair is not fully truthy the
result degrades to a static server whose port comes from the static
server pool. -/
def mergeSettings (ctx : Ctx) (devConfig : DevConfig)
    (frameworkSettings : BaseServerSettings) : Except String BaseServerSettings :=
  let command := jsOrS devConfig.command frameworkSettings.command
  let frameworkPort := jsOrN devConfig.targetPort frameworkSettings.frameworkPort
  let useStaticServer := !(strTruthy command && natTruthy frameworkPort)
  match (if useStaticServer then (getStaticServerPort ctx devConfig).map some
         else .ok frameworkPort) with
  | .error e => .error e
  | .ok fp =>
      .ok { command := command,
            frameworkPort := fp,
            dist := jsOrS devConfig.publish (jsOrS frameworkSettings.dist (some ctx.cwd)),
            framework := frameworkSettings.framework,
            env := frameworkSettings.env,
            pollingStrategies := some (frameworkSettings.pollingStrategies.getD []),
            useStaticServer := useStaticServer }

/-- Source function `handleForcedFramework`: looks the named framework up in the external
detector (which throws when unsupported; the library message is opaque
and modelled as a fixed string) and merges its settings with the config. -/
def handleForcedFramework (ctx : Ctx) (devConfig : DevConfig) (project : Project) :
    Except String BaseServerSettings :=
  match project.forced with
  | none => .error "Invalid framework"
  | some s => mergeSettings ctx devConfig (getSettingsFromDetectedSettings s)

/-- The branch selection of `detectServerSettings` (its `if`/`else if`
cascade producing the intermediate settings). In the `#auto` branch the
source assigns `settings.plugins = frameworkSettings && frameworkSettings.plugins`
after either sub-branch, which is reproduced per sub-branch here. The
initial `validateStringProperty` on `framework` is vacuous in this typed
embedding. -/
def resolveBaseSettings (ctx : Ctx) (project : Project) (devConfig : DevConfig)
    (options : CliOptions) (projectDir : String) : Except String BaseServerSettings :=
  if strTruthy options.dir ∨ devConfig.framework = some "#static" then
    handleStaticServer ctx devConfig options projectDir
  else if devConfig.framework = some "#auto" then
    let runDetection := !(hasCommandAndTargetPort devConfig)
    let frameworkSettings :=
      if runDetection then detectFrameworkSettings ctx project else none
    match frameworkSettings with
    | none =>
        match handleStaticServer ctx devConfig options projectDir with
        | .error e => .error e
        | .ok s => .ok { s with plugins := none }
    | some fs =>
        match validateFrameworkConfig devConfig with
        | .error e => .error e
        | .ok _ =>
            match mergeSettings ctx devConfig fs with
            | .error e => .error e
            | .ok s => .ok { s with plugins := fs.plugins }
  else if devConfig.framework = some "#custom" then
    match validateFrameworkConfig devConfig with
    | .error e => .error e
    | .ok _ => handleCustomFramework ctx devConfig
  else if strTruthy devConfig.framework then
    match validateFrameworkConfig devConfig with
    | .error e => .error e
    | .ok _ => handleForcedFramework ctx devConfig project
  else .ok {}

/-- Final server settings (`ServerSettings` in the source). -/
structure ServerSettings where
  command : Option String := none
  frameworkPort : Option Nat := none
  dist : Option String := none
  framework : Option String := none
  env : Option (List (String × String)) := none
  pollingStrategies : Option (List String) := none
  plugins : Option (List String) := none
  useStaticServer : Bool := false
  port : Nat
  jwtSecret : String
  jwtRolePath : String
  functions : Option String := none
  functionsPort : Option Nat := none
  https : Option HttpsSettings := none
deriving DecidableEq

/-- The shared tail of `detectServerSettings` after branch resolution:
validates the configured port against the resolved framework port,
acquires the externally reachable port, resolves the functions directory
and (when a functions server should start) its port via the external
`get-port`, loads https material when configured, and assembles the final
settings with the JWT defaults. -/
def finishSettings (ctx : Ctx) (devConfig : DevConfig) (projectDir : String)
    (settings : BaseServerSettings) : Except String ServerSettings :=
  match validateConfiguredPort devConfig settings.frameworkPort with
  | .error e => .error e
  | .ok _ =>
      match acquirePort ctx devConfig.port DEFAULT_PORT requiredPortErrMsg with
      | .error e => .error e
      | .ok acquiredPort =>
          let functionsDir := jsOrS devConfig.functions settings.functions
          let shouldStartFunctionsServer :=
            strTruthy functionsDir || strTruthy ctx.internalFunctionsDir
          match (match devConfig.https with
                 | some httpsOptions =>
                     (readHttpsSettings ctx.readFileRes ctx.resolvePath httpsOptions).map some
                 | none => .ok none) with
          | .error e => .error e
          | .ok https =>
              .ok { command := settings.command,
                    frameworkPort := settings.frameworkPort,
                    dist := settings.dist,
                    framework := settings.framework,
                    env := settings.env,
                    pollingStrategies := settings.pollingStrategies,
                    plugins := settings.plugins,
                    useStaticServer := settings.useStaticServer,
                    port := acquiredPort,
                    jwtSecret := jsOrD devConfig.jwtSecret "secret",
                    jwtRolePath := jsOrD devConfig.jwtRolePath "app_metadata.authorization.roles",
                    functions := functionsDir,
                    functionsPort :=
                      if shouldStartFunctionsServer then
                        some (getPort ctx (jsOrZero devConfig.functionsPort))
                      else none,
                    https := https }

/-- Source function `detectServerSettings`: branch resolution followed by the shared
tail. -/
def detectServerSettings (ctx : Ctx) (project : Project) (devConfig : DevConfig)
    (options : CliOptions) (projectDir : String) : Except String ServerSettings :=
  match resolveBaseSettings ctx project devConfig options projectDir with
  | .error e => .error e
  | .ok settings => finishSettings ctx devConfig projectDir settings

/-- The static-server resolution path taken alone: `handleStaticServer`
followed by the shared tail of `detectServerSettings`. This is the
comparison point for the refinement property about zero-match
auto-detection. -/
def staticOnlyResolve (ctx : Ctx) (devConfig : DevConfig) (options : CliOptions)
    (projectDir : String) : Except String ServerSettings :=
  match handleStaticServer ctx devConfig options projectDir with
  | .error e => .error e
  | .ok settings => finishSettings ctx devConfig projectDir settings

/-- Whether an `Except` result is a success. -/
def isOkE {ε α : Type} : Except ε α → Bool
  | .ok _ => true
  | .error _ => false

/-- Decidable equality of `Except` results, for evaluating the embedded
functions at concrete inputs. -/
instance exceptDecEq {eps alpha : Type} [DecidableEq eps] [DecidableEq alpha] :
    DecidableEq (Except eps alpha) := fun a b =>
  match a, b with
  | .ok x, .ok y =>
      if h : x = y then isTrue (by rw [h]) else isFalse (fun he => by cases he; exact h rfl)
  | .ok _, .error _ => isFalse (fun he => by cases he)
  | .error _, .ok _ => isFalse (fun he => by cases he)
  | .error x, .error y =>
      if h : x = y then isTrue (by rw [h]) else isFalse (fun he => by cases he; exact h rfl)

/-- A hexadecimal digit character. -/
def hexNib (n : Nat) : Char :=
  "0123456789abcdef".data.getD (n % 16) '0'

/-- Modelled from the spec: the anonymous identifier is "a v4 UUID string"
(the telemetry reporter is not among the provided sources). A version-4
UUID rendered from 16 random bytes in the canonical 8-4-4-4-12 hex
layout: the version nibble (position 14) is the literal digit 4 and the
variant nibble is in the 8..b range. -/
def uuidv4 (b : Nat → Nat) : String :=
  String.mk [hexNib (b 0 / 16), hexNib (b 0), hexNib (b 1 / 16), hexNib (b 1),
    hexNib (b 2 / 16), hexNib (b 2), hexNib (b 3 / 16), hexNib (b 3), '-',
    hexNib (b 4 / 16), hexNib (b 4), hexNib (b 5 / 16), hexNib (b 5), '-',
    '4', hexNib (b 6), hexNib (b 7 / 16), hexNib (b 7), '-',
    hexNib (8 + b 8 % 4), hexNib (b 8), hexNib (b 9 / 16), hexNib (b 9), '-',
    hexNib (b 10 / 16), hexNib (b 10), hexNib (b 11 / 16), hexNib (b 11),
    hexNib (b 12 / 16), hexNib (b 12), hexNib (b 13 / 16), hexNib (b 13),
    hexNib (b 14 / 16), hexNib (b 14), hexNib (b 15 / 16), hexNib (b 15)]

/-- The numeric value of a lowercase hexadecimal digit character. -/
def hexVal (c : Char) : Option Nat :=
  if 48 ≤ c.toNat ∧ c.toNat ≤ 57 then some (c.toNat - 48)
  else if 97 ≤ c.toNat ∧ c.toNat ≤ 102 then some (c.toNat - 87)
  else none

/-- The UUID version read from a canonically formatted UUID string (the
version nibble at position 14), as the `uuid` library computes it in the
integration test. -/
def uuidVersion (s : String) : Option Nat :=
  match s.data.drop 14 with
  | c :: _ => if s.length = 36 then hexVal c else none
  | [] => none

/-- A request to the telemetry tracking endpoint, per the wire contract:
a POST to the track path with a JSON body of event, anonymousId and
properties, and a user-agent header. -/
structure TrackRequest where
  method : String
  path : String
  event : String
  anonymousId : String
  properties : List (String × String)
  userAgent : String
deriving DecidableEq

/-- Modelled from the spec: the telemetry reporter itself is not among the
provided sources (only its integration test is). With the opt-out flag
(`--telemetry-disable`) no tracking request is issued; with the opt-in
flag (`--telemetry-enable`) exactly one POST to the track endpoint is
issued, carrying the `cli:user_telemetryEnabled` event, a version-4 UUID
anonymous identifier, the CLI and Node versions as properties, and a
user-agent of the form name/version. -/
def telemetryRequests (cliName cliVersion nodejsVersion : String)
    (idBytes : Nat → Nat) (telemetryEnabled : Bool) : List TrackRequest :=
  if telemetryEnabled then
    [{ method := "POST", path := "/track", event := "cli:user_telemetryEnabled",
       anonymousId := uuidv4 idBytes,
       properties := [("cliVersion", cliVersion), ("nodejsVersion", nodejsVersion)],
       userAgent := cliName ++ "/" ++ cliVersion }]
  else []

/-- A context in which every port is free, probing returns the default
port, and file reads succeed. -/
def ctxAll : Ctx :=
  { isFree := fun _ => true, probe := fun d => d, gpFallback := 6000,
    cwd := "/site", internalFunctionsDir := none, chooseIdx := 0,
    readFileRes := fun _ => .ok "data", resolvePath := fun p => p }

/-- A context in which port 5000 is occupied and the get-port fallback
yields 5001. -/
def busy5000Ctx : Ctx :=
  { ctxAll with isFree := fun p => p != 5000, gpFallback := 5001 }

/-- A project in which framework auto-detection proposes nothing. -/
def projEmpty : Project :=
  { buildSettings := [], workspaceKeep := fun _ => true, forced := none }

/-- CLI options without the `--dir` flag. -/
def optsNone : CliOptions := { dir := none }

/-- Dev config with the default `#auto` framework and both `command` and
`targetPort` fully specified. -/
def autoFullCfg : DevConfig :=
  { framework := some "#auto", command := some "npm run dev",
    targetPort := some 3000, publish := some "public" }

/-- Dev config forcing the static server with `port` equal to
`targetPort`. -/
def staticEqualPortsCfg : DevConfig :=
  { framework := some "#static", port := some 3000, targetPort := some 3000 }

/-- Dev config naming a framework explicitly with `port` equal to
`targetPort`. -/
def namedEqualPortsCfg : DevConfig :=
  { framework := some "gatsby", port := some 3000, targetPort := some 3000 }

/-- A filesystem in which both the key file and the cert file are
unreadable, with distinct failure reasons. -/
def bothFailFs : String → Except String String :=
  fun p => if p = "k.pem" then .error "KEYBOOM" else .error "CERTBOOM"

/-- Https options pointing at the two unreadable files. -/
def bothFailHttps : HttpsOptions := { keyFile := some "k.pem", certFile := some "c.pem" }

/-- Dev config with an explicit functions directory and an explicit
functions port. -/
def functionsPortCfg : DevConfig :=
  { framework := some "#static", functions := some "netlify/functions",
    functionsPort := some 5000 }

/-- The settings resolution result for `functionsPortCfg` in a context
where its configured functions port is free. -/
def sWitnessFunctions : ServerSettings :=
  { frameworkPort := some 3999, dist := some "/site", useStaticServer := true,
    port := 8888, jwtSecret := "secret",
    jwtRolePath := "app_metadata.authorization.roles",
    functions := some "netlify/functions", functionsPort := some 5000 }

/-- Dev config with `#custom`, no `command`, and `targetPort` equal to
`port`. -/
def customConflictCfg : DevConfig :=
  { framework := some "#custom", targetPort := some 3000, port := some 3000 }

/-- Dev config with `#custom` and a `targetPort` but no `command`. -/
def customMissingCfg : DevConfig :=
  { framework := some "#custom", targetPort := some 3000 }

/-- A single detected framework whose settings carry a dev command but no
framework port. -/
def detectedNoPortFs : BaseServerSettings :=
  { command := some "astro dev", framework := some "Astro" }

/-- Dev config with the default `#auto` framework and no overrides. -/
def autoNoDetectCfg : DevConfig := { framework := some "#auto" }

/-- Dev config forcing the static server with no other settings. -/
def staticCfg : DevConfig := { framework := some "#static" }

/-- The settings resolution result for `staticCfg` in the all-free
context. -/
def sWitnessStatic : ServerSettings :=
  { frameworkPort := some 3999, dist := some "/site", useStaticServer := true,
    port := 8888, jwtSecret := "secret",
    jwtRolePath := "app_metadata.authorization.roles" }

/-- The settings resolution result for an empty dev config in the
all-free context. -/
def sWitnessDefault : ServerSettings :=
  { port := 8888, jwtSecret := "secret",
    jwtRolePath := "app_metadata.authorization.roles" }

/-- Every success of `handleStaticServer` has `useStaticServer` set, no
plugins, and a framework port acquired from the static server pool. -/
theorem handleStaticServer_ok_fields (ctx : Ctx) (devConfig : DevConfig)
    (options : CliOptions) (projectDir : String) (b : BaseServerSettings)
    (h : handleStaticServer ctx devConfig options projectDir = .ok b) :
    b.useStaticServer = true ∧ b.plugins = none ∧
    ∃ p, getStaticServerPort ctx devConfig = .ok p ∧ b.frameworkPort = some p := by
  unfold handleStaticServer at h
  cases hq : getStaticServerPort ctx devConfig with
  | error e => rw [hq] at h; exact absurd h (by simp)
  | ok p =>
      rw [hq] at h
      injection h with h
      subst h
      exact ⟨rfl, rfl, p, rfl, rfl⟩

/-- The shared resolution tail preserves the branch-produced fields,
applies the JWT defaults, and sets the functions port (when a functions
server is to start) to whatever the external get-port returns for the
configured preference. -/
theorem finishSettings_ok_fields (ctx : Ctx) (devConfig : DevConfig)
    (projectDir : String) (b : BaseServerSettings) (s : ServerSettings)
    (h : finishSettings ctx devConfig projectDir b = .ok s) :
    s.command = b.command ∧ s.frameworkPort = b.frameworkPort ∧
    s.useStaticServer = b.useStaticServer ∧ s.plugins = b.plugins ∧
    s.jwtSecret = jsOrD devConfig.jwtSecret "secret" ∧
    s.jwtRolePath = jsOrD devConfig.jwtRolePath "app_metadata.authorization.roles" ∧
    (s.functionsPort = none ∨
      s.functionsPort = some (getPort ctx (jsOrZero devConfig.functionsPort))) := by
  unfold finishSettings at h
  split at h
  · exact absurd h (by simp)
  · split at h
    · exact absurd h (by simp)
    · split at h
      · exact absurd h (by simp)
      · injection h with h
        subst h
        refine ⟨rfl, rfl, rfl, rfl, rfl, rfl, ?_⟩
        split
        · exact Or.inr rfl
        · exact Or.inl rfl

/-- When the `--dir` flag is set or the framework is `#static`, branch
resolution is exactly `handleStaticServer`. -/
theorem resolveBase_static (ctx : Ctx) (project : Project) (devConfig : DevConfig)
    (options : CliOptions) (projectDir : String)
    (hcond : strTruthy options.dir = true ∨ devConfig.framework = some "#static") :
    resolveBaseSettings ctx project devConfig options projectDir =
      handleStaticServer ctx devConfig options projectDir := by
  unfold resolveBaseSettings
  rw [if_pos hcond]

/-- A successful full resolution factors through a successful branch
resolution and a successful shared tail. -/
theorem detect_bind_ok (ctx : Ctx) (project : Project) (devConfig : DevConfig)
    (options : CliOptions) (projectDir : String) (s : ServerSettings)
    (h : detectServerSettings ctx project devConfig options projectDir = .ok s) :
    ∃ b, resolveBaseSettings ctx project devConfig options projectDir = .ok b ∧
      finishSettings ctx devConfig projectDir b = .ok s := by
  unfold detectServerSettings at h
  cases hb : resolveBaseSettings ctx project devConfig options projectDir with
  | error e => rw [hb] at h; exact absurd h (by simp)
  | ok b => rw [hb] at h; exact ⟨b, rfl, h⟩

/-- Updating the plugins field to `none` is the identity on settings that
already carry no plugins. -/
theorem update_plugins_none (b : BaseServerSettings) (hp : b.plugins = none) :
    { b with plugins := none } = b := by
  cases b
  simp only [BaseServerSettings.mk.injEq] at hp ⊢
  subst hp
  simp

/-- A truthy `targetPort` equal to `port` makes the framework-config
validation fail with the conflict error. -/
theorem validateFrameworkConfig_conflict (devConfig : DevConfig) (t : Nat)
    (htp : devConfig.targetPort = some t) (ht : t ≠ 0)
    (hp : devConfig.port = some t) :
    validateFrameworkConfig devConfig = .error portsConflictMsg := by
  unfold validateFrameworkConfig
  rw [if_pos ⟨by rw [htp]; simp [natTruthy, ht], by rw [htp, hp]⟩]

/-- Claim C1: with framework `#auto`, no `--dir` flag, and both `command`
and `targetPort` configured, the source skips detection but then takes the
static-server fallback branch anyway (its fallback condition tests only
whether detection produced settings, not whether detection ran), so the
result has `useStaticServer = true` and a static-pool framework port
instead of the configured target port; evaluation of the embedding at
such an input exhibits this. -/
theorem auto_full_config_falls_back_to_static :
    (detectServerSettings ctxAll projEmpty autoFullCfg optsNone "/site").map
        (fun s => (s.useStaticServer, s.frameworkPort, s.command)) =
      .ok (true, some 3999, some "npm run dev") := by decide

/-- Claim C2, counterexample: a config forcing the static server with
`port = targetPort = 3000` resolves successfully, so resolution does not
always fail with a conflict error when `port` equals `targetPort`. -/
theorem static_equal_ports_resolution_succeeds :
    isOkE (detectServerSettings ctxAll projEmpty staticEqualPortsCfg optsNone "/site") =
      true := by decide

/-- Claim C2, amended: for a devConfig with both `port` and `targetPort`
set to the same nonzero value, resolution fails with the conflict error in
the branches that validate the framework config (framework set to
`#custom` or to a named framework, with no `--dir` flag); the failure is
independent of the port-acquisition context, so it happens before any
port is acquired. In the static-server branch (and the `#auto` static
fallback) `targetPort` is ignored instead. -/
theorem equal_ports_conflict_in_framework_branches (ctx : Ctx) (project : Project)
    (devConfig : DevConfig) (options : CliOptions) (projectDir : String)
    (f : String) (t : Nat)
    (hdir : options.dir = none) (hfw : devConfig.framework = some f)
    (h1 : f ≠ "#static") (h2 : f ≠ "#auto") (h3 : f ≠ "")
    (htp : devConfig.targetPort = some t) (ht : t ≠ 0)
    (hp : devConfig.port = some t) :
    detectServerSettings ctx project devConfig options projectDir =
      .error portsConflictMsg := by
  have hval := validateFrameworkConfig_conflict devConfig t htp ht hp
  unfold detectServerSettings resolveBaseSettings
  rw [if_neg (by rw [hdir, hfw]; simp [strTruthy, h1]),
    if_neg (by rw [hfw]; simp [h2])]
  by_cases hc : f = "#custom"
  · rw [if_pos (by rw [hfw, hc]), hval]
  · rw [if_neg (by rw [hfw]; simp [hc]),
      if_pos (by rw [hfw]; simp [strTruthy, h3]), hval]

/-- Claim C2, witness: a named-framework config with equal ports fails
with the conflict error. -/
theorem equal_ports_conflict_in_framework_branches_witness :
    detectServerSettings ctxAll projEmpty namedEqualPortsCfg optsNone "/site" =
      .error portsConflictMsg :=
  equal_ports_conflict_in_framework_branches ctxAll projEmpty namedEqualPortsCfg
    optsNone "/site" "gatsby" 3000 rfl rfl (by decide) (by decide) (by decide)
    rfl (by decide) rfl

/-- Claim C3, counterexample: with both the key file and the cert file
unreadable, the single error reports only the private-key problem; the
certificate problem ("CERTBOOM") does not occur in the message. -/
theorem https_both_unreadable_reports_only_key_problem :
    readHttpsSettings bothFailFs (fun p => p) bothFailHttps =
        .error (keyReadErrMsg "KEYBOOM") ∧
      hasSub (keyReadErrMsg "KEYBOOM") "CERTBOOM" = false := by decide

/-- Claim C3, amended: both reads are settled before either is inspected,
but when the key read failed the error reports only the key problem,
whatever the certificate read produced; the certificate problem is
reported only when the key read succeeded. -/
theorem https_key_error_reported_first (readFileRes : String → Except String String)
    (resolvePath : String → String) (options : HttpsOptions)
    (kf km : String)
    (hk : options.keyFile = some kf) (hkt : kf ≠ "")
    (hct : strTruthy options.certFile = true)
    (hread : readFileRes kf = .error km) :
    readHttpsSettings readFileRes resolvePath options = .error (keyReadErrMsg km) := by
  unfold readHttpsSettings
  rw [if_pos ⟨by rw [hk]; simp [strTruthy, hkt], hct⟩]
  simp only [hk, Option.getD_some, hread]

/-- Claim C3, witness: the amended statement at the concrete two-failure
filesystem. -/
theorem https_key_error_reported_first_witness :
    readHttpsSettings bothFailFs (fun p => p) bothFailHttps =
      .error (keyReadErrMsg "KEYBOOM") :=
  https_key_error_reported_first bothFailFs (fun p => p) bothFailHttps
    "k.pem" "KEYBOOM" rfl (by decide) (by decide) (by decide)

/-- Claim C4, counterexample: with `functionsPort = 5000` configured but
occupied, resolution succeeds and returns functions port 5001 — the
configured functions port is silently replaced by another free port
rather than resolution failing. -/
theorem functions_port_silently_reassigned :
    (detectServerSettings busy5000Ctx projEmpty functionsPortCfg optsNone "/site").map
        (fun s => s.functionsPort) = .ok (some 5001) ∧
      functionsPortCfg.functionsPort = some 5000 := by decide

/-- Claim C4, amended: the configured functions port is given to the
external get-port as a preference, so when it is free it is honored: every
successful resolution has either no functions port (no functions server)
or exactly the configured one. When the configured port is occupied,
get-port silently substitutes another free port instead of failing. -/
theorem functions_port_honored_when_free (ctx : Ctx) (project : Project)
    (devConfig : DevConfig) (options : CliOptions) (projectDir : String)
    (p : Nat) (s : ServerSettings)
    (hfp : devConfig.functionsPort = some p) (hp : p ≠ 0)
    (hfree : ctx.isFree p = true)
    (h : detectServerSettings ctx project devConfig options projectDir = .ok s) :
    s.functionsPort = none ∨ s.functionsPort = some p := by
  obtain ⟨b, hb, hf⟩ := detect_bind_ok ctx project devConfig options projectDir s h
  obtain ⟨_, _, _, _, _, _, h7⟩ :=
    finishSettings_ok_fields ctx devConfig projectDir b s hf
  cases h7 with
  | inl h7 => exact Or.inl h7
  | inr h7 =>
      right
      rw [h7]
      have hz : jsOrZero devConfig.functionsPort = p := by
        unfold jsOrZero
        rw [hfp]
        simp [natTruthy, hp]
      rw [hz]
      unfold getPort
      rw [if_pos ⟨hp, hfree⟩]

/-- Claim C4, witness: the amended statement at a concrete config whose
configured functions port is free. -/
theorem functions_port_honored_when_free_witness :
    sWitnessFunctions.functionsPort = none ∨
      sWitnessFunctions.functionsPort = some 5000 :=
  functions_port_honored_when_free ctxAll projEmpty functionsPortCfg optsNone
    "/site" 5000 sWitnessFunctions rfl (by decide) (by decide) (by decide)

set_option maxRecDepth 4000 in
/-- Claim C5, counterexample: a `#custom` config missing `command` whose
`targetPort` equals `port` fails with the port/targetPort conflict error,
whose message does not name the required `command` field. -/
theorem custom_missing_command_gets_conflict_error :
    detectServerSettings ctxAll projEmpty customConflictCfg optsNone "/site" =
        .error portsConflictMsg ∧
      hasSub portsConflictMsg "\x27command\x27" = false := by decide

/-- Claim C5, amended: a `#custom` config (no `--dir`) missing `command`
or `targetPort` fails; unless the port/targetPort conflict validation
fires first (both set and equal), the error is the custom-framework
validation error, whose message names both required fields, `command` and
`targetPort`. -/
theorem custom_missing_fields_error_names_both (ctx : Ctx) (project : Project)
    (devConfig : DevConfig) (options : CliOptions) (projectDir : String)
    (hdir : options.dir = none)
    (hfw : devConfig.framework = some "#custom")
    (hmiss : hasCommandAndTargetPort devConfig = false)
    (hval : validateFrameworkConfig devConfig = .ok ()) :
    detectServerSettings ctx project devConfig options projectDir =
        .error customFrameworkRequiredMsg ∧
      hasSub customFrameworkRequiredMsg "\x27command\x27" = true ∧
      hasSub customFrameworkRequiredMsg "\x27targetPort\x27" = true := by
  refine ⟨?_, by decide, by decide⟩
  unfold detectServerSettings resolveBaseSettings
  rw [if_neg (by rw [hdir, hfw]; simp [strTruthy]),
    if_neg (by rw [hfw]; simp), if_pos hfw, hval]
  unfold handleCustomFramework
  rw [if_neg (by rw [hmiss]; simp)]

/-- Claim C5, witness: the amended statement at a `#custom` config with a
target port but no command and no conflicting `port`. -/
theorem custom_missing_fields_error_names_both_witness :
    detectServerSettings ctxAll projEmpty customMissingCfg optsNone "/site" =
        .error customFrameworkRequiredMsg ∧
      hasSub customFrameworkRequiredMsg "\x27command\x27" = true ∧
      hasSub customFrameworkRequiredMsg "\x27targetPort\x27" = true :=
  custom_missing_fields_error_names_both ctxAll projEmpty customMissingCfg
    optsNone "/site" rfl rfl (by decide) (by decide)

/-- Claim C6: when the config has no command/targetPort overrides and the
single detected match lacks a dev command or a framework port, the merge
succeeds (it does not fail) with `useStaticServer = true` and a framework
port acquired from the static server pool. -/
theorem merge_partial_detection_static_fallback (ctx : Ctx) (devConfig : DevConfig)
    (fs : BaseServerSettings) (p : Nat)
    (hcmd : strTruthy devConfig.command = false)
    (htp : natTruthy devConfig.targetPort = false)
    (hlack : strTruthy fs.command = false ∨ natTruthy fs.frameworkPort = false)
    (hpool : getStaticServerPort ctx devConfig = .ok p) :
    (mergeSettings ctx devConfig fs).map
        (fun s => (s.useStaticServer, s.frameworkPort)) = .ok (true, some p) := by
  unfold mergeSettings
  have hcommand : jsOrS devConfig.command fs.command = fs.command := by
    unfold jsOrS; rw [hcmd]; rfl
  have hfp : jsOrN devConfig.targetPort fs.frameworkPort = fs.frameworkPort := by
    unfold jsOrN; rw [htp]; rfl
  have hus : (!(strTruthy (jsOrS devConfig.command fs.command) &&
      natTruthy (jsOrN devConfig.targetPort fs.frameworkPort))) = true := by
    rw [hcommand, hfp]
    cases hlack with
    | inl h => simp [h]
    | inr h => simp [h]
  simp only [hus, if_pos, hpool, Except.map]

/-- Claim C6, witness: merging a detected framework that has a dev command
but no framework port, with an override-free config, falls back to the
static server on port 3999. -/
theorem merge_partial_detection_static_fallback_witness :
    (mergeSettings ctxAll {} detectedNoPortFs).map
        (fun s => (s.useStaticServer, s.frameworkPort)) = .ok (true, some 3999) :=
  merge_partial_detection_static_fallback ctxAll {} detectedNoPortFs 3999
    rfl rfl (Or.inr rfl) (by decide)

/-- Claim C7: with framework `#auto`, no `--dir` flag, no full
command/targetPort override, and auto-detection yielding zero matches,
the full resolution returns exactly what the static-server resolution
path alone produces on the same inputs. -/
theorem auto_zero_matches_equals_static_path (ctx : Ctx) (project : Project)
    (devConfig : DevConfig) (options : CliOptions) (projectDir : String)
    (hdir : strTruthy options.dir = false)
    (hfw : devConfig.framework = some "#auto")
    (hskip : hasCommandAndTargetPort devConfig = false)
    (hdet : detectFrameworkSettings ctx project = none) :
    detectServerSettings ctx project devConfig options projectDir =
      staticOnlyResolve ctx devConfig options projectDir := by
  unfold detectServerSettings staticOnlyResolve resolveBaseSettings
  rw [if_neg (by rw [hdir, hfw]; simp), if_pos hfw]
  simp only [hskip, hdet, Bool.not_false, if_pos]
  cases hb : handleStaticServer ctx devConfig options projectDir with
  | error e => rfl
  | ok b =>
      obtain ⟨_, hp, _⟩ :=
        handleStaticServer_ok_fields ctx devConfig options projectDir b hb
      simp only [update_plugins_none b hp]

/-- Claim C7, witness: the refinement at a concrete `#auto` config and a
project with no detectable framework. -/
theorem auto_zero_matches_equals_static_path_witness :
    detectServerSettings ctxAll projEmpty autoNoDetectCfg optsNone "/site" =
      staticOnlyResolve ctxAll autoNoDetectCfg optsNone "/site" :=
  auto_zero_matches_equals_static_path ctxAll projEmpty autoNoDetectCfg optsNone
    "/site" rfl rfl rfl rfl

/-- Claim C8: whenever the `--dir` flag is set or the framework is
`#static`, every successful resolution has `useStaticServer = true` and a
framework port acquired from the static server pool (the configured
`staticServerPort`, defaulting to `DEFAULT_STATIC_PORT = 3999`). -/
theorem static_branch_uses_static_pool (ctx : Ctx) (project : Project)
    (devConfig : DevConfig) (options : CliOptions) (projectDir : String)
    (s : ServerSettings)
    (hcond : strTruthy options.dir = true ∨ devConfig.framework = some "#static")
    (h : detectServerSettings ctx project devConfig options projectDir = .ok s) :
    s.useStaticServer = true ∧
    (getStaticServerPort ctx devConfig).map some = .ok s.frameworkPort ∧
    DEFAULT_STATIC_PORT = 3999 := by
  obtain ⟨b, hb, hf⟩ := detect_bind_ok ctx project devConfig options projectDir s h
  rw [resolveBase_static ctx project devConfig options projectDir hcond] at hb
  obtain ⟨hu, hpl, p, hq, hfp⟩ :=
    handleStaticServer_ok_fields ctx devConfig options projectDir b hb
  obtain ⟨_, h2, h3, _, _, _, _⟩ :=
    finishSettings_ok_fields ctx devConfig projectDir b s hf
  refine ⟨by rw [h3, hu], ?_, rfl⟩
  rw [hq, h2, hfp]
  rfl

/-- Claim C8, witness: the static branch at a concrete `#static` config. -/
theorem static_branch_uses_static_pool_witness :
    sWitnessStatic.useStaticServer = true ∧
    (getStaticServerPort ctxAll staticCfg).map some = .ok sWitnessStatic.frameworkPort ∧
    DEFAULT_STATIC_PORT = 3999 :=
  static_branch_uses_static_pool ctxAll projEmpty staticCfg optsNone "/site"
    sWitnessStatic (Or.inr rfl) (by decide)

/-- Claim C9: with telemetry disabled no tracking request is issued; with
telemetry enabled exactly one request is issued, and it is a POST to the
track path carrying the `cli:user_telemetryEnabled` event, an anonymous
identifier whose UUID version is 4, and a user-agent equal to the CLI
name, a slash, and the CLI version. -/
theorem telemetry_flag_request_contract (n v nv : String) (b : Nat → Nat) :
    telemetryRequests n v nv b false = [] ∧
    (telemetryRequests n v nv b true).length = 1 ∧
    ∀ r ∈ telemetryRequests n v nv b true,
      r.method = "POST" ∧ r.path = "/track" ∧
      r.event = "cli:user_telemetryEnabled" ∧
      uuidVersion r.anonymousId = some 4 ∧ r.userAgent = n ++ "/" ++ v := by
  refine ⟨rfl, rfl, ?_⟩
  intro r hr
  have hr' : r = ({ method := "POST", path := "/track",
                    event := "cli:user_telemetryEnabled", anonymousId := uuidv4 b,
                    properties := [("cliVersion", v), ("nodejsVersion", nv)],
                    userAgent := n ++ "/" ++ v } : TrackRequest) := by
    simpa [telemetryRequests] using hr
  subst hr'
  refine ⟨rfl, rfl, rfl, ?_, rfl⟩
  show uuidVersion (uuidv4 b) = some 4
  unfold uuidVersion uuidv4
  simp only [String.data]
  norm_num [List.drop, String.length, hexVal]
  rfl

/-- Claim C9, witness: the telemetry contract at concrete CLI name,
versions and identifier bytes. -/
theorem telemetry_flag_request_contract_witness :
    telemetryRequests "netlify-cli" "17.10.1" "v18.0.0" (fun _ => 0) false = [] ∧
    uuidVersion (uuidv4 (fun _ => 0)) = some 4 := by
  have h := telemetry_flag_request_contract "netlify-cli" "17.10.1" "v18.0.0" (fun _ => 0)
  refine ⟨h.1, ?_⟩
  have h2 := h.2.2 ({ method := "POST", path := "/track",
                      event := "cli:user_telemetryEnabled",
                      anonymousId := uuidv4 (fun _ => 0),
                      properties := [("cliVersion", "17.10.1"), ("nodejsVersion", "v18.0.0")],
                      userAgent := "netlify-cli" ++ "/" ++ "17.10.1" } : TrackRequest)
    (by simp [telemetryRequests])
  exact h2.2.2.2.1

/-- Claim C10: every successful resolution with `jwtSecret` unset carries
the literal JWT secret "secret", and with `jwtRolePath` unset carries the
role path "app_metadata.authorization.roles". -/
theorem jwt_defaults_on_success (ctx : Ctx) (project : Project)
    (devConfig : DevConfig) (options : CliOptions) (projectDir : String)
    (s : ServerSettings)
    (hjs : devConfig.jwtSecret = none) (hjr : devConfig.jwtRolePath = none)
    (h : detectServerSettings ctx project devConfig options projectDir = .ok s) :
    s.jwtSecret = "secret" ∧ s.jwtRolePath = "app_metadata.authorization.roles" := by
  obtain ⟨b, hb, hf⟩ := detect_bind_ok ctx project devConfig options projectDir s h
  obtain ⟨_, _, _, _, h5, h6, _⟩ :=
    finishSettings_ok_fields ctx devConfig projectDir b s hf
  constructor
  · rw [h5, hjs]; rfl
  · rw [h6, hjr]; rfl

/-- Claim C10, witness: the JWT defaults at the empty dev config. -/
theorem jwt_defaults_on_success_witness :
    sWitnessDefault.jwtSecret = "secret" ∧
    sWitnessDefault.jwtRolePath = "app_metadata.authorization.roles" :=
  jwt_defaults_on_success ctxAll projEmpty {} optsNone "/site" sWitnessDefault
    rfl rfl (by decide)
